import Mathlib

/-!
Verification development for the Track Finder Charts backend.

The repository consists of several near-duplicate Express route-handler files
backed by Supabase (PostgREST) tables. We shallowly embed the route handlers
that the claims are about:

- server.js (v6.0, first file): upload-track, charts, vote, track-play,
  verifyToken, sendEmail. Embedded under the Srv prefix.
- src/unnamed/part_000 (v2.5): upload-track (token lookup without the used
  filter, and no token consumption), charts (approved filter). Embedded
  under the P0 prefix.
- src/unnamed/part_001 (v5.0): vote, tracks listing, finalize-winners.
  Embedded under the P1 prefix.

Numbers stored in the database are modelled as Nat counters and Rat values
for the running average (the JS code computes with doubles; the claims about
the mean are stated up to floating-point tolerance, so the exact rational
computation is the intended idealization). PostgREST result shapes are
modelled with pgMaybeSingle and pgSingle, which reproduce the maybeSingle
and single behaviours (error on multiple rows, and for single also on zero
rows). Store-side failures of individual awaited calls are injected through
explicit environment records, because each awaited Supabase call can fail
independently.
-/

/-- PostgREST maybeSingle: none on zero rows, the row on one, error on more. -/
def pgMaybeSingle {α : Type} (l : List α) : Except String (Option α) :=
  match l with
  | [] => Except.ok none
  | [a] => Except.ok (some a)
  | _ :: _ :: _ => Except.error "JSON object requested, multiple rows returned"

/-- PostgREST single: the row on exactly one row, error otherwise. -/
def pgSingle {α : Type} (l : List α) : Except String α :=
  match l with
  | [] => Except.error "JSON object requested, no rows returned"
  | [a] => Except.ok a
  | _ :: _ :: _ => Except.error "JSON object requested, multiple rows returned"

instance {ε α : Type} [DecidableEq ε] [DecidableEq α] : DecidableEq (Except ε α) := fun x y =>
  match x, y with
  | Except.ok a, Except.ok b =>
      if h : a = b then isTrue (congrArg Except.ok h)
      else isFalse (fun hc => h (Except.ok.inj hc))
  | Except.error a, Except.error b =>
      if h : a = b then isTrue (congrArg Except.error h)
      else isFalse (fun hc => h (Except.error.inj hc))
  | Except.ok _, Except.error _ => isFalse (fun hc => Except.noConfusion hc)
  | Except.error _, Except.ok _ => isFalse (fun hc => Except.noConfusion hc)

/-- A row of the upload_tokens table. -/
structure UploadToken where
  id : Nat
  email : String
  token : String
  used : Bool
  deriving DecidableEq

/-- A row of the tracks table (the aggregate fields the claims are about). -/
structure Track where
  id : Nat
  artist : String
  title : String
  genre : String
  approved : Bool
  total_votes : Nat
  average_rating : ℚ
  play_count : Nat
  created_at : Nat
  deriving DecidableEq

/-- A row of the winners table, as inserted by part_001 finalize-winners. -/
structure WinnerRecord where
  track_id : Nat
  title : String
  artist : String
  average_rating : ℚ
  total_votes : Nat
  deriving DecidableEq

/-- A structured JSON response: HTTP status, success flag, and the
message/error string exposed to the caller (none on plain success). -/
structure ApiResp where
  status : Nat
  success : Bool
  error : Option String
  deriving DecidableEq

/-- JS truthiness test for an optional numeric id: absent or 0 is falsy. -/
def jsFalsyNat : Option Nat → Bool
  | none => true
  | some n => n == 0

/-- JS truthiness test for an optional numeric score: absent or 0 is falsy. -/
def jsFalsyQ : Option ℚ → Bool
  | none => true
  | some q => q == 0

/-- JS expr v or d for an optional string: absent or empty falls to d. -/
def jsOrStr (s : Option String) (d : String) : String :=
  match s with
  | none => d
  | some v => if v == "" then d else v

/-- Supabase descending order on average_rating, as a sort relation. -/
def ratingGE (a b : Track) : Prop :=
  b.average_rating ≤ a.average_rating

instance : DecidableRel ratingGE :=
  fun a b => (inferInstance : Decidable (b.average_rating ≤ a.average_rating))

instance : IsTotal Track ratingGE :=
  ⟨fun a b => le_total b.average_rating a.average_rating⟩

instance : IsTrans Track ratingGE :=
  ⟨fun _ _ _ hab hbc => le_trans hbc hab⟩

/-- Supabase descending order on created_at, as a sort relation. -/
def createdGE (a b : Track) : Prop :=
  b.created_at ≤ a.created_at

instance : DecidableRel createdGE :=
  fun a b => (inferInstance : Decidable (b.created_at ≤ a.created_at))

instance : IsTotal Track createdGE :=
  ⟨fun a b => le_total b.created_at a.created_at⟩

instance : IsTrans Track createdGE :=
  ⟨fun _ _ _ hab hbc => le_trans hbc hab⟩

/-- The incremental mean update from part_001 lines 183 to 185:
newTotalVotes is total_votes + 1 and the new average is
(average_rating * total_votes + score) / newTotalVotes. -/
def voteStep (st : ℚ × Nat) (score : ℚ) : ℚ × Nat :=
  ((st.1 * (st.2 : ℚ) + score) / ((st.2 : ℚ) + 1), st.2 + 1)

/-- The same update as written in server.js lines 220 to 222:
total is votes + 1 and the new average is
(average_rating * (total - 1) + score) / total. -/
def Srv.voteUpdate (avg : ℚ) (votes : Nat) (score : ℚ) : ℚ × Nat :=
  ((avg * ((votes + 1 - 1 : Nat) : ℚ) + score) / ((votes + 1 : Nat) : ℚ), votes + 1)

/-- POST /api/vote of part_001 (lines 169 to 198): reject falsy fields with
400, look the track up with maybeSingle (throw on store error, 404 on no
row), otherwise apply the incremental mean update to every row with the
given id. -/
def P1.recordVote (ts : List Track) (trackId : Option Nat) (score : Option ℚ) :
    ApiResp × List Track :=
  if jsFalsyNat trackId || jsFalsyQ score then
    ({ status := 400, success := false, error := some "Missing fields" }, ts)
  else
    match pgMaybeSingle (ts.filter (fun u => u.id == trackId.getD 0)) with
    | Except.error _ =>
        ({ status := 500, success := false, error := some "Failed to vote" }, ts)
    | Except.ok none =>
        ({ status := 404, success := false, error := some "Track not found" }, ts)
    | Except.ok (some t) =>
        ({ status := 200, success := true, error := none },
         ts.map (fun u =>
           if u.id == trackId.getD 0 then
             { u with
               average_rating := (voteStep (t.average_rating, t.total_votes) (score.getD 0)).1,
               total_votes := (voteStep (t.average_rating, t.total_votes) (score.getD 0)).2 }
           else u))

/-- POST /api/vote of server.js lines 206 to 234: reject falsy fields with
400 Missing fields, look the row up with single (a thrown error, which is
what a missing track produces, is caught and answered with the generic 500
Failed to vote.), then write the Srv.voteUpdate result to every row with
the given id and answer success. -/
def Srv.recordVote (ts : List Track) (trackId : Option Nat) (score : Option ℚ) :
    ApiResp × List Track :=
  if jsFalsyNat trackId || jsFalsyQ score then
    ({ status := 400, success := false, error := some "Missing fields" }, ts)
  else
    match pgSingle (ts.filter (fun u => u.id == trackId.getD 0)) with
    | Except.error _ =>
        ({ status := 500, success := false, error := some "Failed to vote." }, ts)
    | Except.ok t =>
        ({ status := 200, success := true, error := none },
         ts.map (fun u =>
           if u.id == trackId.getD 0 then
             { u with
               average_rating := (Srv.voteUpdate t.average_rating t.total_votes (score.getD 0)).1,
               total_votes := (Srv.voteUpdate t.average_rating t.total_votes (score.getD 0)).2 }
           else u))

/-- A sequence of vote requests against the same store, each carrying the
given track id and the next score. -/
def P1.voteSeq (ts : List Track) (tid : Nat) (scores : List ℚ) : List Track :=
  scores.foldl (fun st sc => (P1.recordVote st (some tid) (some sc)).2) ts

theorem voteStep_foldl_closed (scores : List ℚ) :
    scores.foldl voteStep (0, 0) = (scores.sum / (scores.length : ℚ), scores.length) := by
  have aux : ∀ (l : List ℚ) (a : ℚ) (n : ℕ),
      (l.foldl voteStep (a, n)).2 = n + l.length ∧
      (l.foldl voteStep (a, n)).1 * ((n : ℚ) + (l.length : ℚ)) = a * (n : ℚ) + l.sum := by
    intro l
    induction l with
    | nil => intro a n; simp
    | cons s ss ih =>
        intro a n
        have hne : ((n : ℚ) + 1) ≠ 0 := by positivity
        have h := ih ((a * (n : ℚ) + s) / ((n : ℚ) + 1)) (n + 1)
        constructor
        · have h1 := h.1
          simp only [List.foldl_cons, List.length_cons]
          show (ss.foldl voteStep (voteStep (a, n) s)).2 = n + (ss.length + 1)
          simp only [voteStep] at h1 ⊢
          omega
        · have h2 := h.2
          simp only [List.foldl_cons, List.sum_cons]
          show (ss.foldl voteStep (voteStep (a, n) s)).1 * ((n : ℚ) + ((ss.length + 1 : ℕ) : ℚ)) =
            a * (n : ℚ) + (s + ss.sum)
          simp only [voteStep] at h2 ⊢
          push_cast at h2 ⊢
          rw [div_mul_cancel₀ _ hne] at h2
          linear_combination h2
  obtain ⟨h1, h2⟩ := aux scores 0 0
  by_cases hl : scores.length = 0
  · have : scores = [] := List.length_eq_zero.mp hl
    subst this
    simp
  · have hne : ((scores.length : ℚ)) ≠ 0 := Nat.cast_ne_zero.mpr hl
    rw [Prod.ext_iff]
    constructor
    · show _ = scores.sum / (scores.length : ℚ)
      rw [eq_div_iff hne]
      simpa using h2
    · simpa using h1

theorem P1.recordVote_hit (t : Track) (sc : ℚ) (hid : t.id ≠ 0) (hsc : sc ≠ 0) :
    P1.recordVote [t] (some t.id) (some sc) =
      ({ status := 200, success := true, error := none },
       [{ t with
          average_rating := (voteStep (t.average_rating, t.total_votes) sc).1,
          total_votes := (voteStep (t.average_rating, t.total_votes) sc).2 }]) := by
  have h1 : jsFalsyNat (some t.id) = false := by
    simp [jsFalsyNat, hid]
  have h2 : jsFalsyQ (some sc) = false := by
    simp [jsFalsyQ, hsc]
  unfold P1.recordVote
  rw [h1, h2]
  simp [pgMaybeSingle]

theorem P1.voteSeq_single (scores : List ℚ) : ∀ (t : Track), t.id ≠ 0 →
    (∀ s ∈ scores, s ≠ 0) →
    P1.voteSeq [t] t.id scores =
      [{ t with
         average_rating := (scores.foldl voteStep (t.average_rating, t.total_votes)).1,
         total_votes := (scores.foldl voteStep (t.average_rating, t.total_votes)).2 }] := by
  induction scores with
  | nil =>
      intro t _ _
      show [t] = _
      simp
  | cons s ss ih =>
      intro t hid hs
      have hstep := P1.recordVote_hit t s hid (hs s (by simp))
      show P1.voteSeq (P1.recordVote [t] (some t.id) (some s)).2 t.id ss = _
      rw [hstep]
      have := ih
        { t with
          average_rating := (voteStep (t.average_rating, t.total_votes) s).1,
          total_votes := (voteStep (t.average_rating, t.total_votes) s).2 }
        hid (fun x hx => hs x (by simp [hx]))
      rw [this]
      simp [List.foldl_cons]

/-- Store side effects of one upload request, in execution order. -/
inductive Ev
  | tokenLookup
  | blobWrite
  | trackInsert
  | tokenConsume
  | emailSend
  deriving DecidableEq

/-- Fault injection for the awaited store calls of the server.js upload
handler: each awaited Supabase call can fail independently (none means the
call succeeds). -/
structure IoEnv where
  lookupError : Option String := none
  blobError : Option String := none
  insertError : Option String := none
  consumeError : Option String := none
  emailFails : Bool := false
  deriving DecidableEq

/-- Everything one run of the server.js upload handler produces: the HTTP
response, the store calls that were issued, the resulting upload_tokens
table, how many track rows were inserted, and the console log of the email
helper. -/
structure SrvOutcome where
  resp : ApiResp
  events : List Ev
  tokens : List UploadToken
  inserted : Nat
  emailLog : Option String
  deriving DecidableEq

def missing400 : ApiResp :=
  { status := 400, success := false, error := some "Missing required fields." }

def forbidden403 : ApiResp :=
  { status := 403, success := false, error := some "Invalid or used token." }

def upload500 : ApiResp :=
  { status := 500, success := false, error := some "Upload failed." }

def uploadOk : ApiResp :=
  { status := 200, success := true, error := none }

/-- verifyToken of server.js lines 47 to 58: select from upload_tokens
where email, token and used = false match, with maybeSingle. -/
def Srv.verifyToken (toks : List UploadToken) (email tok : String) :
    Except String (Option UploadToken) :=
  pgMaybeSingle (toks.filter (fun t => t.email == email && t.token == tok && t.used == false))

/-- The token consumption of server.js lines 159 to 162: update
upload_tokens set used = true where id matches. The update is not
conditioned on used = false. -/
def Srv.consumeToken (toks : List UploadToken) (id0 : Nat) : List UploadToken :=
  toks.map (fun t => if t.id == id0 then { t with used := true } else t)

/-- sendEmail of server.js lines 61 to 67: the provider call can fail, and
the helper catches every failure and only logs it. The returned value is
the console log line, none when the send succeeded. -/
def Srv.sendEmail (fails : Bool) : Option String :=
  match (if fails then Except.error "provider failure" else Except.ok ()) with
  | Except.ok _ => none
  | Except.error msg => some ("Email send failed: " ++ msg)

/-- The tail of the server.js upload handler after verifyToken succeeded
(lines 91 to 181): preview and blob writes (a thrown error is caught and
answered with 500 Upload failed), the tracks insert (insertErr is thrown,
same catch), then the token update whose error result is never inspected,
the email helper, and the success response. fs cleanup is out of scope and
elided. -/
def Srv.uploadFinish (toks : List UploadToken) (row : UploadToken) (env : IoEnv) :
    SrvOutcome :=
  match env.blobError with
  | some _ =>
      { resp := upload500, events := [Ev.tokenLookup, Ev.blobWrite],
        tokens := toks, inserted := 0, emailLog := none }
  | none =>
      match env.insertError with
      | some _ =>
          { resp := upload500,
            events := [Ev.tokenLookup, Ev.blobWrite, Ev.trackInsert],
            tokens := toks, inserted := 0, emailLog := none }
      | none =>
          { resp := uploadOk,
            events := [Ev.tokenLookup, Ev.blobWrite, Ev.trackInsert,
                       Ev.tokenConsume, Ev.emailSend],
            tokens :=
              (match env.consumeError with
               | some _ => toks
               | none => Srv.consumeToken toks row.id),
            inserted := 1,
            emailLog := Srv.sendEmail env.emailFails }

/-- POST /api/upload-track of server.js lines 70 to 183: reject missing
fields with 400, verify the token (a thrown lookup error is caught and
answered with 500, no matching row answers 403), then run the finish phase. -/
def Srv.uploadTrack (toks : List UploadToken) (email tok : String) (fieldsOk : Bool)
    (env : IoEnv) : SrvOutcome :=
  if fieldsOk then
    match env.lookupError with
    | some _ =>
        { resp := upload500, events := [Ev.tokenLookup],
          tokens := toks, inserted := 0, emailLog := none }
    | none =>
        match Srv.verifyToken toks email tok with
        | Except.error _ =>
            { resp := upload500, events := [Ev.tokenLookup],
              tokens := toks, inserted := 0, emailLog := none }
        | Except.ok none =>
            { resp := forbidden403, events := [Ev.tokenLookup],
              tokens := toks, inserted := 0, emailLog := none }
        | Except.ok (some row) => Srv.uploadFinish toks row env
  else
    { resp := missing400, events := [], tokens := toks, inserted := 0, emailLog := none }

/-- Fault injection for the part_000 upload handler. -/
structure P0Env where
  lookupError : Option String := none
  uploadError : Option String := none
  insertError : Option String := none
  deriving DecidableEq

/-- Outcome of one part_000 upload request. -/
structure P0Outcome where
  resp : ApiResp
  tokens : List UploadToken
  inserted : Nat
  deriving DecidableEq

/-- The catch handler of part_000 lines 111 to 114: it answers 500 with
err.message when that is truthy, falling back to Upload failed. only for an
empty message. -/
def P0.uploadCatch (msg : String) : ApiResp :=
  { status := 500, success := false,
    error := some (if msg == "" then "Upload failed." else msg) }

/-- POST /api/upload-track of part_000 lines 43 to 115: the token lookup
filters only on email and token (not on used), a thrown store error reaches
the catch handler, no matching row answers 400, a missing track file
answers 400, then blob write and insert; the upload_tokens table is never
written (there is no consumption step in this variant). -/
def P0.uploadTrack (toks : List UploadToken) (email tok : String) (fileOk : Bool)
    (env : P0Env) : P0Outcome :=
  match env.lookupError with
  | some m => { resp := P0.uploadCatch m, tokens := toks, inserted := 0 }
  | none =>
      match pgMaybeSingle (toks.filter (fun t => t.email == email && t.token == tok)) with
      | Except.error m => { resp := P0.uploadCatch m, tokens := toks, inserted := 0 }
      | Except.ok none =>
          { resp := { status := 400, success := false, error := some "Invalid token or email." },
            tokens := toks, inserted := 0 }
      | Except.ok (some _) =>
          if fileOk then
            match env.uploadError with
            | some m => { resp := P0.uploadCatch m, tokens := toks, inserted := 0 }
            | none =>
                match env.insertError with
                | some m => { resp := P0.uploadCatch m, tokens := toks, inserted := 0 }
                | none =>
                    { resp := { status := 200, success := true, error := none },
                      tokens := toks, inserted := 1 }
          else
            { resp := { status := 400, success := false, error := some "No track file uploaded." },
              tokens := toks, inserted := 0 }

/-- GET /api/charts of server.js lines 186 to 203: select all tracks ordered
by average_rating descending, adding a genre filter unless the genre
parameter (defaulted to all) is all. There is no approved filter and no
pagination in this variant. -/
def Srv.charts (genre : Option String) (ts : List Track) : List Track :=
  List.insertionSort ratingGE
    (if jsOrStr genre "all" != "all" then
      ts.filter (fun t => t.genre == jsOrStr genre "all")
    else ts)

/-- GET /api/charts of part_000 lines 118 to 138: select tracks with
approved = true ordered by created_at descending, adding a genre filter
unless the genre parameter (defaulted to all) is all. -/
def P0.charts (genre : Option String) (ts : List Track) : List Track :=
  List.insertionSort createdGE
    (if jsOrStr genre "all" != "all" then
      (ts.filter (fun t => t.approved)).filter (fun t => t.genre == jsOrStr genre "all")
    else ts.filter (fun t => t.approved))

/-- The query string of a charts request. The part_000 handler reads only
req.query.genre; any pagination parameters a caller sends are present in
the query but never read. -/
structure ChartsQuery where
  genre : Option String := none
  pageOffset : Option Nat := none
  pageSize : Option Nat := none
  deriving DecidableEq

/-- The part_000 charts handler applied to a full query string. -/
def P0.chartsHandler (q : ChartsQuery) (ts : List Track) : List Track :=
  P0.charts q.genre ts

/-- GET /api/tracks of part_001 lines 152 to 166: select all tracks ordered
by created_at descending, adding a genre filter only when the genre
parameter is present, nonempty and not all. No approved filter. -/
def P1.tracksList (genre : Option String) (ts : List Track) : List Track :=
  List.insertionSort createdGE
    (match genre with
     | none => ts
     | some g => if g != "" && g != "all" then ts.filter (fun t => t.genre == g) else ts)

/-- Outcome of one part_001 play request: response, the play_count field of
the response body, and the resulting tracks table. -/
structure PlayOutcome where
  resp : ApiResp
  play_count : Option Nat
  tracks : List Track
  deriving DecidableEq

/-- POST /api/track-play/:id of server.js lines 237 to 258: select
play_count with single (a thrown error is caught and answered with 500
Failed to update play count), then write play_count + 1 to every row with
the given id and answer 200 with the new count. -/
def Srv.trackPlay (ts : List Track) (id0 : Nat) : PlayOutcome :=
  match pgSingle (ts.filter (fun u => u.id == id0)) with
  | Except.error _ =>
      { resp := { status := 500, success := false, error := some "Failed to update play count" },
        play_count := none, tracks := ts }
  | Except.ok t =>
      { resp := { status := 200, success := true, error := none },
        play_count := some (t.play_count + 1),
        tracks := ts.map (fun u =>
          if u.id == id0 then { u with play_count := t.play_count + 1 } else u) }

/-- k successive play requests for the same id against the same store. -/
def Srv.playTimes : Nat → List Track → Nat → List Track
  | 0, ts, _ => ts
  | Nat.succ k, ts, id0 => (Srv.trackPlay (Srv.playTimes k ts id0) id0).tracks

/-- The winner row part_001 lines 216 to 225 inserts for a track. -/
def P1.toWinner (t : Track) : WinnerRecord :=
  { track_id := t.id, title := t.title, artist := t.artist,
    average_rating := t.average_rating, total_votes := t.total_votes }

/-- POST /api/finalize-winners of part_001 lines 201 to 233: reject a
mismatched x-admin-token header with 401, select all tracks ordered by
average_rating descending limited to 10, insert one winners row per
selected track, and answer 200 Winners finalized (also on an empty track
set). -/
def P1.finalizeWinners (adminToken envToken : String) (ts : List Track) :
    ApiResp × List WinnerRecord :=
  if adminToken != envToken then
    ({ status := 401, success := false, error := some "Unauthorized" }, [])
  else
    ({ status := 200, success := true, error := none },
     ((List.insertionSort ratingGE ts).take 10).map P1.toWinner)

/-- Modelled from the spec (section 4.3): the composite score
averageRating * voteCount + playCount that finalizeWinner is claimed to
rank by. No such computation exists anywhere in the source; this definition
follows the words of the spec and is used only to compare the claimed
ranking with the implemented one. -/
def specCompositeScore (t : Track) : ℚ :=
  t.average_rating * (t.total_votes : ℚ) + (t.play_count : ℚ)

/-- Fixture: a freshly inserted track with zeroed counters, as built by the
upload handlers (total_votes 0, average_rating 0, play_count 0). -/
def trackFresh : Track :=
  { id := 1, artist := "a", title := "b", genre := "house", approved := true,
    total_votes := 0, average_rating := 0, play_count := 0, created_at := 0 }

/-- Fixture: an unused upload token. -/
def tok1 : UploadToken :=
  { id := 1, email := "a@x.com", token := "ABC123", used := false }

/-- Fixture: the same token already consumed. -/
def tokUsed : UploadToken :=
  { id := 1, email := "a@x.com", token := "ABC123", used := true }

/-- Fixture: a track with a high average over zero votes and zero plays. -/
def trackA : Track :=
  { id := 1, artist := "aa", title := "ta", genre := "g", approved := true,
    total_votes := 0, average_rating := 5, play_count := 0, created_at := 0 }

/-- Fixture: a track with a low average over many votes and plays. -/
def trackB : Track :=
  { id := 2, artist := "bb", title := "tb", genre := "g", approved := true,
    total_votes := 100, average_rating := 1, play_count := 50, created_at := 1 }

/-- Fixture: a track whose approved flag is false. -/
def trackHidden : Track :=
  { id := 3, artist := "cc", title := "tc", genre := "g", approved := false,
    total_votes := 0, average_rating := 0, play_count := 0, created_at := 2 }

/-- C1 (the code violates the claim): in part_000 the admission lookup
matches only (email, token), so even a used token admits, and the
upload_tokens table is never written, so a second upload with the same
token also completes; in server.js the consumption is a read (verifyToken)
followed by a separate unconditional update, so two requests that both
verify the token before either update both finalize an insert, and no
TokenAlreadyUsed failure exists on either path. -/
theorem C1_single_use_violated :
    (P0.uploadTrack [tokUsed] "a@x.com" "ABC123" true {}).resp.success = true ∧
    ((P0.uploadTrack [tok1] "a@x.com" "ABC123" true {}).resp.success = true ∧
     (P0.uploadTrack [tok1] "a@x.com" "ABC123" true {}).tokens = [tok1] ∧
     (P0.uploadTrack [tok1] "a@x.com" "ABC123" true {}).inserted = 1 ∧
     (P0.uploadTrack (P0.uploadTrack [tok1] "a@x.com" "ABC123" true {}).tokens
        "a@x.com" "ABC123" true {}).resp.success = true) ∧
    (Srv.verifyToken [tok1] "a@x.com" "ABC123" = Except.ok (some tok1) ∧
     (Srv.uploadFinish [tok1] tok1 {}).resp.success = true ∧
     (Srv.uploadFinish [tok1] tok1 {}).inserted = 1 ∧
     (Srv.uploadFinish (Srv.uploadFinish [tok1] tok1 {}).tokens tok1 {}).resp.success = true ∧
     (Srv.uploadFinish (Srv.uploadFinish [tok1] tok1 {}).tokens tok1 {}).inserted = 1) := by
  decide

/-- C3 counterexample: on an empty track set the part_001 finalize-winners
handler succeeds with zero winner rows instead of failing with a
NoEligibleTracks kind, and on the set trackA, trackB it selects trackA
first although trackA has the strictly smaller composite score
averageRating, voteCount, playCount combination claimed by the spec. -/
theorem C3_counterexample_not_composite :
    (P1.finalizeWinners "s" "s" []).1 = { status := 200, success := true, error := none } ∧
    (P1.finalizeWinners "s" "s" []).2 = [] ∧
    (P1.finalizeWinners "s" "s" [trackA, trackB]).2.head? = some (P1.toWinner trackA) ∧
    specCompositeScore trackA < specCompositeScore trackB := by
  refine ⟨by decide, by decide, ?_, ?_⟩
  · norm_num [P1.finalizeWinners, List.insertionSort, List.orderedInsert, ratingGE,
      trackA, trackB]
  · norm_num [specCompositeScore, trackA, trackB]

/-- C3 amended: finalize-winners requires the admin token to match exactly
and otherwise answers 401; on a match it answers 200 and appends exactly
one winner row per selected track, where the selection and the remainder
split the stored track multiset, the selection holds min(10, n) tracks,
every remaining track rates no higher than any selected one (so the
selection is a top 10 by averageRating), and the selection is listed in
descending averageRating order; no composite score is computed and an
empty track set yields success with zero winner rows. -/
theorem C3_amended_top10_by_rating (a e : String) (ts : List Track) :
    (a ≠ e → P1.finalizeWinners a e ts =
      ({ status := 401, success := false, error := some "Unauthorized" }, [])) ∧
    (a = e →
      (P1.finalizeWinners a e ts).1 = { status := 200, success := true, error := none } ∧
      ∃ sel rest : List Track,
        (P1.finalizeWinners a e ts).2 = sel.map P1.toWinner ∧
        sel.length = min 10 ts.length ∧
        List.Sorted ratingGE sel ∧
        List.Perm (sel ++ rest) ts ∧
        (∀ t ∈ sel, ∀ u ∈ rest, u.average_rating ≤ t.average_rating)) := by
  constructor
  · intro h
    simp [P1.finalizeWinners, bne_iff_ne, h]
  · intro h
    subst h
    have hred : P1.finalizeWinners a a ts =
        ({ status := 200, success := true, error := none },
         ((List.insertionSort ratingGE ts).take 10).map P1.toWinner) := by
      simp [P1.finalizeWinners]
    rw [hred]
    refine ⟨rfl, (List.insertionSort ratingGE ts).take 10,
      (List.insertionSort ratingGE ts).drop 10, rfl, ?_, ?_, ?_, ?_⟩
    · simp
    · exact List.Pairwise.sublist (List.take_sublist 10 _)
        (List.sorted_insertionSort ratingGE ts)
    · rw [List.take_append_drop]
      exact List.perm_insertionSort ratingGE ts
    · have hp := List.sorted_insertionSort ratingGE ts
      rw [← List.take_append_drop 10 (List.insertionSort ratingGE ts)] at hp
      exact fun t ht u hu => (List.pairwise_append.mp hp).2.2 t ht u hu

/-- Witness for C3 amended at concrete inputs: a mismatched admin token,
and a two-track set with matching token. -/
theorem C3_amended_top10_by_rating_witness :
    ("a" : String) ≠ "b" ∧
    P1.finalizeWinners "a" "b" [] =
      ({ status := 401, success := false, error := some "Unauthorized" }, []) ∧
    (P1.finalizeWinners "s" "s" [trackA, trackB]).1 =
      { status := 200, success := true, error := none } ∧
    (∃ sel rest : List Track,
      (P1.finalizeWinners "s" "s" [trackA, trackB]).2 = sel.map P1.toWinner ∧
      sel.length = min 10 [trackA, trackB].length ∧
      List.Sorted ratingGE sel ∧
      List.Perm (sel ++ rest) [trackA, trackB] ∧
      (∀ t ∈ sel, ∀ u ∈ rest, u.average_rating ≤ t.average_rating)) := by
  have h1 := (C3_amended_top10_by_rating "a" "b" []).1 (by decide)
  have h2 := (C3_amended_top10_by_rating "s" "s" [trackA, trackB]).2 rfl
  exact ⟨by decide, h1, h2.1, h2.2⟩

/-- C4 counterexample: the part_001 vote handler accepts the out-of-range
scores 999 and -3 (there is no InvalidScore outcome anywhere in the
handler) and folds them into the stored aggregate. -/
theorem C4_counterexample_no_invalid_score :
    (P1.recordVote [trackFresh] (some 1) (some 999)).1 =
      { status := 200, success := true, error := none } ∧
    (P1.recordVote [trackFresh] (some 1) (some 999)).2 =
      [{ trackFresh with average_rating := 999, total_votes := 1 }] ∧
    (P1.recordVote [trackFresh] (some 1) (some (-3))).1.success = true := by
  refine ⟨?_, ?_, ?_⟩ <;>
    norm_num [P1.recordVote, jsFalsyNat, jsFalsyQ, pgMaybeSingle, voteStep, trackFresh]

/-- C4 amended: neither vote handler performs any score-range validation;
every request whose track_id and score are truthy and whose track resolves
is accepted whatever the score (no InvalidScore outcome exists), part_001
updating exactly the matching rows with the incremental mean; a falsy
(0 or absent) score or track_id answers 400 Missing fields in both
handlers, leaving the store unchanged; an unresolved track_id answers 404
Track not found in part_001 but the generic 500 Failed to vote. in
server.js (whose caught single() error is no distinct not-found kind), in
both cases leaving the store unchanged. -/
theorem C4_amended_no_score_validation (ts : List Track) (tid : Nat) (sc : ℚ) (t : Track) :
    (ts.filter (fun u => u.id == tid) = [t] → tid ≠ 0 → sc ≠ 0 →
      (P1.recordVote ts (some tid) (some sc)).1 =
        { status := 200, success := true, error := none } ∧
      (P1.recordVote ts (some tid) (some sc)).2 =
        ts.map (fun u =>
          if u.id == tid then
            { u with
              average_rating :=
                (t.average_rating * (t.total_votes : ℚ) + sc) / ((t.total_votes : ℚ) + 1),
              total_votes := t.total_votes + 1 }
          else u)) ∧
    (ts.filter (fun u => u.id == tid) = [t] → tid ≠ 0 → sc ≠ 0 →
      (Srv.recordVote ts (some tid) (some sc)).1 =
        { status := 200, success := true, error := none }) ∧
    (ts.filter (fun u => u.id == tid) = [] → tid ≠ 0 → sc ≠ 0 →
      (P1.recordVote ts (some tid) (some sc)).1 =
        { status := 404, success := false, error := some "Track not found" } ∧
      (P1.recordVote ts (some tid) (some sc)).2 = ts) ∧
    (ts.filter (fun u => u.id == tid) = [] → tid ≠ 0 → sc ≠ 0 →
      (Srv.recordVote ts (some tid) (some sc)).1 =
        { status := 500, success := false, error := some "Failed to vote." } ∧
      (Srv.recordVote ts (some tid) (some sc)).2 = ts) ∧
    (sc = 0 →
      (P1.recordVote ts (some tid) (some sc)).1.status = 400 ∧
      (P1.recordVote ts (some tid) (some sc)).2 = ts ∧
      (Srv.recordVote ts (some tid) (some sc)).1.status = 400 ∧
      (Srv.recordVote ts (some tid) (some sc)).2 = ts) ∧
    (tid = 0 →
      (P1.recordVote ts (some tid) (some sc)).1.status = 400 ∧
      (P1.recordVote ts (some tid) (some sc)).2 = ts ∧
      (Srv.recordVote ts (some tid) (some sc)).1.status = 400 ∧
      (Srv.recordVote ts (some tid) (some sc)).2 = ts) ∧
    ((P1.recordVote ts none (some sc)).1.status = 400 ∧
     (P1.recordVote ts none (some sc)).2 = ts ∧
     (Srv.recordVote ts none (some sc)).1.status = 400 ∧
     (Srv.recordVote ts none (some sc)).2 = ts) ∧
    ((P1.recordVote ts (some tid) none).1.status = 400 ∧
     (P1.recordVote ts (some tid) none).2 = ts ∧
     (Srv.recordVote ts (some tid) none).1.status = 400 ∧
     (Srv.recordVote ts (some tid) none).2 = ts) := by
  refine ⟨?_, ?_, ?_, ?_, ?_, ?_, ?_, ?_⟩
  · intro hf hid hsc
    unfold P1.recordVote
    rw [if_neg (by simp [jsFalsyNat, jsFalsyQ, hid, hsc])]
    simp only [Option.getD_some]
    rw [hf]
    simp [pgMaybeSingle, voteStep]
  · intro hf hid hsc
    unfold Srv.recordVote
    rw [if_neg (by simp [jsFalsyNat, jsFalsyQ, hid, hsc])]
    simp only [Option.getD_some]
    rw [hf]
    simp [pgSingle]
  · intro hf hid hsc
    unfold P1.recordVote
    rw [if_neg (by simp [jsFalsyNat, jsFalsyQ, hid, hsc])]
    simp only [Option.getD_some]
    rw [hf]
    simp [pgMaybeSingle]
  · intro hf hid hsc
    unfold Srv.recordVote
    rw [if_neg (by simp [jsFalsyNat, jsFalsyQ, hid, hsc])]
    simp only [Option.getD_some]
    rw [hf]
    simp [pgSingle]
  · intro hsc
    subst hsc
    unfold P1.recordVote Srv.recordVote
    rw [if_pos (by simp [jsFalsyQ]), if_pos (by simp [jsFalsyQ])]
    exact ⟨rfl, rfl, rfl, rfl⟩
  · intro htid
    subst htid
    unfold P1.recordVote Srv.recordVote
    rw [if_pos (by simp [jsFalsyNat]), if_pos (by simp [jsFalsyNat])]
    exact ⟨rfl, rfl, rfl, rfl⟩
  · unfold P1.recordVote Srv.recordVote
    rw [if_pos (by simp [jsFalsyNat]), if_pos (by simp [jsFalsyNat])]
    exact ⟨rfl, rfl, rfl, rfl⟩
  · unfold P1.recordVote Srv.recordVote
    rw [if_pos (by simp [jsFalsyQ]), if_pos (by simp [jsFalsyQ])]
    exact ⟨rfl, rfl, rfl, rfl⟩

/-- Witness for C4 amended: a resolving track with score 999 in both
handlers, an empty store in both handlers, a zero score, a zero track_id,
and absent fields. -/
theorem C4_amended_no_score_validation_witness :
    (P1.recordVote [trackFresh] (some 1) (some 999)).1.success = true ∧
    (Srv.recordVote [trackFresh] (some 1) (some 999)).1.success = true ∧
    (P1.recordVote [] (some 1) (some 999)).1 =
      { status := 404, success := false, error := some "Track not found" } ∧
    (Srv.recordVote [] (some 1) (some 999)).1 =
      { status := 500, success := false, error := some "Failed to vote." } ∧
    (P1.recordVote [trackFresh] (some 1) (some 0)).1.status = 400 ∧
    (P1.recordVote [trackFresh] (some 0) (some 999)).1.status = 400 ∧
    (P1.recordVote [trackFresh] none (some 999)).1.status = 400 ∧
    (Srv.recordVote [trackFresh] (some 1) none).1.status = 400 := by
  have h1 := C4_amended_no_score_validation [trackFresh] 1 999 trackFresh
  have h2 := C4_amended_no_score_validation ([] : List Track) 1 999 trackFresh
  have h3 := C4_amended_no_score_validation [trackFresh] 1 0 trackFresh
  have h4 := C4_amended_no_score_validation [trackFresh] 0 999 trackFresh
  refine ⟨?_, ?_, ?_, ?_, ?_, ?_, ?_, ?_⟩
  · rw [(h1.1 (by decide) (by decide) (by decide)).1]
  · rw [h1.2.1 (by decide) (by decide) (by decide)]
  · exact (h2.2.2.1 rfl (by decide) (by decide)).1
  · exact (h2.2.2.2.1 rfl (by decide) (by decide)).1
  · exact (h3.2.2.2.2.1 rfl).1
  · exact (h4.2.2.2.2.2.1 rfl).1
  · exact h1.2.2.2.2.2.2.1.1
  · exact h1.2.2.2.2.2.2.2.2.2.1

/-- C5 counterexample: the server.js charts endpoint and the part_001
tracks endpoint list a track whose approved flag is false. -/
theorem C5_counterexample_unapproved_listed :
    Srv.charts none [trackHidden] = [trackHidden] ∧
    P1.tracksList none [trackHidden] = [trackHidden] ∧
    trackHidden.approved = false := by
  decide

/-- C5 amended: only the part_000 charts endpoint filters on approved:
every track it returns, for every genre parameter and store, has
approved = true; the server.js charts and part_001 tracks listings apply no
approved filter (see the counterexample). -/
theorem C5_amended_p0_approved_only (genre : Option String) (ts : List Track) (t : Track)
    (h : t ∈ P0.charts genre ts) : t.approved = true := by
  unfold P0.charts at h
  simp only [List.mem_insertionSort] at h
  split at h
  · exact (List.mem_filter.mp (List.mem_filter.mp h).1).2
  · exact (List.mem_filter.mp h).2

/-- Witness for C5 amended: an approved track is listed and approved. -/
theorem C5_amended_p0_approved_only_witness :
    trackFresh ∈ P0.charts none [trackFresh] ∧ trackFresh.approved = true := by
  refine ⟨by decide, ?_⟩
  exact C5_amended_p0_approved_only none [trackFresh] trackFresh (by decide)

/-- C6 counterexample: the part_000 charts handler ignores pagination
parameters: a pageOffset beyond the result count still returns the whole
set (not the claimed empty sequence), and a pageSize of 1 still returns
both tracks of a two-track store. -/
theorem C6_counterexample_pagination_ignored :
    P0.chartsHandler { genre := none, pageOffset := some 10, pageSize := some 5 }
      [trackFresh] = [trackFresh] ∧
    P0.chartsHandler { genre := none, pageOffset := some 10, pageSize := some 5 }
      [trackFresh] ≠ [] ∧
    1 < (P0.chartsHandler { genre := none, pageOffset := some 0, pageSize := some 1 }
      [trackFresh, trackB]).length := by
  decide

/-- C6 amended: the charts endpoint supports no pagination at all: the
handler reads only the genre parameter, so the result is independent of any
pageOffset and pageSize sent, and with no genre filter it returns the whole
approved set in a single response (each approved track exactly once). -/
theorem C6_amended_page_params_ignored (q r : ChartsQuery) (ts : List Track) :
    (q.genre = r.genre → P0.chartsHandler q ts = P0.chartsHandler r ts) ∧
    (q.genre = none →
      List.Perm (P0.chartsHandler q ts) (ts.filter (fun t => t.approved))) := by
  constructor
  · intro h
    unfold P0.chartsHandler
    rw [h]
  · intro h
    unfold P0.chartsHandler P0.charts
    rw [h]
    simp only [jsOrStr]
    rw [if_neg (by decide)]
    exact List.perm_insertionSort createdGE _

/-- Witness for C6 amended: two queries differing only in pagination
parameters give the same listing, and the listing is the whole approved
set. -/
theorem C6_amended_page_params_ignored_witness :
    P0.chartsHandler { genre := none, pageOffset := some 10, pageSize := some 1 }
      [trackFresh] = P0.chartsHandler {} [trackFresh] ∧
    List.Perm
      (P0.chartsHandler { genre := none, pageOffset := some 10, pageSize := some 1 }
        [trackFresh])
      ([trackFresh].filter (fun t => t.approved)) := by
  have h := C6_amended_page_params_ignored
    { genre := none, pageOffset := some 10, pageSize := some 1 } {} [trackFresh]
  exact ⟨h.1 rfl, h.2 rfl⟩

/-- C2: starting from voteCount 0 and averageRating 0, recording the votes
v1..vn through the part_001 vote handler leaves voteCount n and
averageRating sum(vi)/n stored, i.e. the incremental update
newAverage = (oldAverage * oldVoteCount + score) / (oldVoteCount + 1) is
equivalent to the arithmetic mean of the whole history; the server.js
formula (average * (total - 1) + score) / total is the same function. -/
theorem C2_running_mean_equals_full_mean (t : Track) (scores : List ℚ)
    (hid : t.id ≠ 0) (h0v : t.total_votes = 0) (h0a : t.average_rating = 0)
    (hs : ∀ s ∈ scores, s ≠ 0) :
    P1.voteSeq [t] t.id scores =
      [{ t with
         average_rating := scores.sum / (scores.length : ℚ),
         total_votes := scores.length }] ∧
    (∀ (a : ℚ) (n : Nat) (s : ℚ), Srv.voteUpdate a n s = voteStep (a, n) s) := by
  constructor
  · rw [P1.voteSeq_single scores t hid hs, h0v, h0a, voteStep_foldl_closed]
  · intro a n s
    unfold Srv.voteUpdate voteStep
    simp

/-- Witness for C2 at the example from the spec: votes 8, 6, 10 on a fresh
track end with voteCount 3 and averageRating 8. -/
theorem C2_running_mean_equals_full_mean_witness :
    trackFresh.id ≠ 0 ∧ trackFresh.total_votes = 0 ∧ trackFresh.average_rating = 0 ∧
    (∀ s ∈ ([8, 6, 10] : List ℚ), s ≠ 0) ∧
    P1.voteSeq [trackFresh] trackFresh.id [8, 6, 10] =
      [{ trackFresh with average_rating := 8, total_votes := 3 }] := by
  refine ⟨by decide, rfl, rfl, by decide, ?_⟩
  have h := (C2_running_mean_equals_full_mean trackFresh [8, 6, 10]
    (by decide) rfl rfl (by decide)).1
  rw [h]
  norm_num

/-- C7 counterexample: with the tracks insert committed, a failing token
update is silently swallowed by the server.js upload handler: the error
object of the update is never inspected, the request still answers 200
success, and the token is left unconsumed, with no distinct error kind. -/
theorem C7_counterexample_consume_failure_swallowed :
    (Srv.uploadTrack [tok1] "a@x.com" "ABC123" true
      { consumeError := some "connection reset" }).resp = uploadOk ∧
    (Srv.uploadTrack [tok1] "a@x.com" "ABC123" true
      { consumeError := some "connection reset" }).tokens = [tok1] ∧
    (Srv.uploadTrack [tok1] "a@x.com" "ABC123" true
      { consumeError := some "connection reset" }).inserted = 1 := by
  decide

/-- C7 amended: in the server.js upload handler the token update is issued
only after the tracks insert succeeded (whenever a consume event occurs,
the event trace is exactly lookup, blob, insert, consume, email), a
successful response implies exactly one consume event, failed field
validation or a failed admission issue no consume event; but a failure of
the token update itself is not surfaced: the response is still the success
response and the token row stays unconsumed. -/
theorem C7_amended_consume_after_insert (toks : List UploadToken) (email tok : String)
    (fieldsOk : Bool) (env : IoEnv) :
    (Ev.tokenConsume ∈ (Srv.uploadTrack toks email tok fieldsOk env).events →
      (Srv.uploadTrack toks email tok fieldsOk env).events =
        [Ev.tokenLookup, Ev.blobWrite, Ev.trackInsert, Ev.tokenConsume, Ev.emailSend]) ∧
    ((Srv.uploadTrack toks email tok fieldsOk env).resp.success = true →
      (Srv.uploadTrack toks email tok fieldsOk env).events.count Ev.tokenConsume = 1) ∧
    (fieldsOk = false →
      Ev.tokenConsume ∉ (Srv.uploadTrack toks email tok fieldsOk env).events) ∧
    (Srv.verifyToken toks email tok = Except.ok none →
      Ev.tokenConsume ∉ (Srv.uploadTrack toks email tok fieldsOk env).events) ∧
    (∀ msg row, fieldsOk = true → env.lookupError = none →
      Srv.verifyToken toks email tok = Except.ok (some row) →
      env.blobError = none → env.insertError = none → env.consumeError = some msg →
      (Srv.uploadTrack toks email tok fieldsOk env).resp = uploadOk ∧
      (Srv.uploadTrack toks email tok fieldsOk env).tokens = toks ∧
      (Srv.uploadTrack toks email tok fieldsOk env).inserted = 1) := by
  rcases env with ⟨lk, bl, ins, con, em⟩
  refine ⟨?_, ?_, ?_, ?_, ?_⟩
  · intro hmem
    cases fieldsOk with
    | false => simp [Srv.uploadTrack] at hmem
    | true =>
      cases lk with
      | some m => simp [Srv.uploadTrack] at hmem
      | none =>
        cases hv : Srv.verifyToken toks email tok with
        | error e => simp [Srv.uploadTrack, hv] at hmem
        | ok o =>
          cases o with
          | none => simp [Srv.uploadTrack, hv] at hmem
          | some row =>
            cases bl with
            | some m => simp [Srv.uploadTrack, Srv.uploadFinish, hv] at hmem
            | none =>
              cases ins with
              | some m => simp [Srv.uploadTrack, Srv.uploadFinish, hv] at hmem
              | none => simp [Srv.uploadTrack, Srv.uploadFinish, hv]
  · intro hsucc
    cases fieldsOk with
    | false => simp [Srv.uploadTrack, missing400] at hsucc
    | true =>
      cases lk with
      | some m => simp [Srv.uploadTrack, upload500] at hsucc
      | none =>
        cases hv : Srv.verifyToken toks email tok with
        | error e => simp [Srv.uploadTrack, hv, upload500] at hsucc
        | ok o =>
          cases o with
          | none => simp [Srv.uploadTrack, hv, forbidden403] at hsucc
          | some row =>
            cases bl with
            | some m => simp [Srv.uploadTrack, Srv.uploadFinish, hv, upload500] at hsucc
            | none =>
              cases ins with
              | some m => simp [Srv.uploadTrack, Srv.uploadFinish, hv, upload500] at hsucc
              | none => simp [Srv.uploadTrack, Srv.uploadFinish, hv]
  · intro h
    subst h
    simp [Srv.uploadTrack]
  · intro hv
    cases fieldsOk with
    | false => simp [Srv.uploadTrack]
    | true =>
      cases lk with
      | some m => simp [Srv.uploadTrack]
      | none => simp [Srv.uploadTrack, hv]
  · intro msg row hf hlk hv hbl hins hcon
    subst hf
    subst hlk
    subst hbl
    subst hins
    subst hcon
    simp [Srv.uploadTrack, Srv.uploadFinish, hv]

/-- Witness for C7 amended at concrete inputs: a clean run, a run with
missing fields, a run with no admitting token, and a run whose token
update fails. -/
theorem C7_amended_consume_after_insert_witness :
    (Srv.uploadTrack [tok1] "a@x.com" "ABC123" true {}).events =
      [Ev.tokenLookup, Ev.blobWrite, Ev.trackInsert, Ev.tokenConsume, Ev.emailSend] ∧
    (Srv.uploadTrack [tok1] "a@x.com" "ABC123" true {}).events.count Ev.tokenConsume = 1 ∧
    Ev.tokenConsume ∉ (Srv.uploadTrack [tok1] "a@x.com" "ABC123" false {}).events ∧
    Ev.tokenConsume ∉ (Srv.uploadTrack [] "a@x.com" "ABC123" true {}).events ∧
    (Srv.uploadTrack [tok1] "a@x.com" "ABC123" true
      { consumeError := some "boom" }).resp = uploadOk := by
  have h1 := C7_amended_consume_after_insert [tok1] "a@x.com" "ABC123" true {}
  have h2 := C7_amended_consume_after_insert [tok1] "a@x.com" "ABC123" false {}
  have h3 := C7_amended_consume_after_insert [] "a@x.com" "ABC123" true {}
  have h4 := C7_amended_consume_after_insert [tok1] "a@x.com" "ABC123" true
    { consumeError := some "boom" }
  exact ⟨h1.1 (by decide), h1.2.1 (by decide), h2.2.2.1 rfl, h3.2.2.2.1 (by decide),
    (h4.2.2.2.2 "boom" tok1 rfl rfl (by decide) rfl rfl rfl).1⟩

/-- C8 counterexample: for a missing track the play handler answers the
generic 500 Failed to update play count, not a not-found kind (the spec
maps TrackNotFound to a not-found report, HTTP 404, and part_001 vote shows
the codebase expressing not-found as 404 Track not found). -/
theorem C8_counterexample_notfound_is_generic_500 :
    (Srv.trackPlay [] 7).resp =
      { status := 500, success := false, error := some "Failed to update play count" } ∧
    (Srv.trackPlay [] 7).resp.status ≠ 404 ∧
    (Srv.trackPlay [] 7).resp.error ≠ some "Track not found" := by
  decide

/-- C8 amended: a play request for a uniquely resolving track answers 200
with play_count incremented by exactly 1 and writes the incremented count
to the matching rows; for a missing track it answers the generic 500
failure leaving the store unchanged; and after k play requests on a fresh
one-track store the stored play_count is exactly k. -/
theorem C8_amended_play_increment (ts : List Track) (id0 : Nat) (t : Track) (k : Nat) :
    (ts.filter (fun u => u.id == id0) = [t] →
      (Srv.trackPlay ts id0).resp = { status := 200, success := true, error := none } ∧
      (Srv.trackPlay ts id0).play_count = some (t.play_count + 1) ∧
      (Srv.trackPlay ts id0).tracks =
        ts.map (fun u => if u.id == id0 then { u with play_count := t.play_count + 1 } else u)) ∧
    (ts.filter (fun u => u.id == id0) = [] →
      (Srv.trackPlay ts id0).resp =
        { status := 500, success := false, error := some "Failed to update play count" } ∧
      (Srv.trackPlay ts id0).tracks = ts) ∧
    (t.play_count = 0 → Srv.playTimes k [t] t.id = [{ t with play_count := k }]) := by
  refine ⟨?_, ?_, ?_⟩
  · intro h
    unfold Srv.trackPlay
    rw [h]
    simp [pgSingle]
  · intro h
    unfold Srv.trackPlay
    rw [h]
    simp [pgSingle]
  · intro h0
    induction k with
    | zero =>
        show [t] = _
        have ht : ({ t with play_count := 0 } : Track) = t := by
          cases t
          simp_all
        rw [ht]
    | succ k ih =>
        show (Srv.trackPlay (Srv.playTimes k [t] t.id) t.id).tracks = _
        rw [ih]
        unfold Srv.trackPlay
        simp [pgSingle]

/-- Witness for C8 amended: one play on a fresh track, a play on an empty
store, and five plays on a fresh track. -/
theorem C8_amended_play_increment_witness :
    (Srv.trackPlay [trackFresh] 1).resp = { status := 200, success := true, error := none } ∧
    (Srv.trackPlay [trackFresh] 1).play_count = some 1 ∧
    (Srv.trackPlay [] 1).resp =
      { status := 500, success := false, error := some "Failed to update play count" } ∧
    Srv.playTimes 5 [trackFresh] trackFresh.id = [{ trackFresh with play_count := 5 }] := by
  have h1 := C8_amended_play_increment [trackFresh] 1 trackFresh 5
  have h2 := C8_amended_play_increment ([] : List Track) 1 trackFresh 0
  exact ⟨(h1.1 (by decide)).1, (h1.1 (by decide)).2.1, (h2.2.1 rfl).1, h1.2.2 rfl⟩

/-- C9 counterexample: the part_000 upload catch handler copies the
internal store error text verbatim into the response body. -/
theorem C9_counterexample_p0_leaks_store_error :
    (P0.uploadTrack [tok1] "a@x.com" "ABC123" true
      { insertError := some "duplicate key value violates unique constraint tracks_pkey" }).resp.error =
      some "duplicate key value violates unique constraint tracks_pkey" := by
  decide

/-- C9 amended: the server.js upload handler answers every request with one
of the fixed category strings Missing required fields., Invalid or used
token., Upload failed. (or none on success), whatever internal error text
the store produced; the part_000 variant instead echoes the store error
text (see the counterexample). -/
theorem C9_amended_fixed_categories (toks : List UploadToken) (email tok : String)
    (fieldsOk : Bool) (env : IoEnv) :
    (Srv.uploadTrack toks email tok fieldsOk env).resp.error ∈
      ([none, some "Missing required fields.", some "Invalid or used token.",
        some "Upload failed."] : List (Option String)) := by
  rcases env with ⟨lk, bl, ins, con, em⟩
  cases fieldsOk with
  | false => simp [Srv.uploadTrack, missing400]
  | true =>
    cases lk with
    | some m => simp [Srv.uploadTrack, upload500]
    | none =>
      cases hv : Srv.verifyToken toks email tok with
      | error e => simp [Srv.uploadTrack, hv, upload500]
      | ok o =>
        cases o with
        | none => simp [Srv.uploadTrack, hv, forbidden403]
        | some row =>
          cases bl with
          | some m => simp [Srv.uploadTrack, Srv.uploadFinish, hv, upload500]
          | none =>
            cases ins with
            | some m => simp [Srv.uploadTrack, Srv.uploadFinish, hv, upload500]
            | none => simp [Srv.uploadTrack, Srv.uploadFinish, hv, uploadOk]

/-- C10: a failure of the confirmation-email send never changes the outcome
of a server.js upload request: for every store behaviour the response, the
issued store calls, the resulting token table and the number of inserted
tracks are identical whether the provider call succeeds or throws, because
sendEmail catches every provider error internally and only logs it. -/
theorem C10_email_failure_never_changes_outcome (toks : List UploadToken)
    (email tok : String) (fieldsOk : Bool) (env : IoEnv) (b1 b2 : Bool) :
    (Srv.uploadTrack toks email tok fieldsOk { env with emailFails := b1 }).resp =
      (Srv.uploadTrack toks email tok fieldsOk { env with emailFails := b2 }).resp ∧
    (Srv.uploadTrack toks email tok fieldsOk { env with emailFails := b1 }).events =
      (Srv.uploadTrack toks email tok fieldsOk { env with emailFails := b2 }).events ∧
    (Srv.uploadTrack toks email tok fieldsOk { env with emailFails := b1 }).tokens =
      (Srv.uploadTrack toks email tok fieldsOk { env with emailFails := b2 }).tokens ∧
    (Srv.uploadTrack toks email tok fieldsOk { env with emailFails := b1 }).inserted =
      (Srv.uploadTrack toks email tok fieldsOk { env with emailFails := b2 }).inserted := by
  rcases env with ⟨lk, bl, ins, con, em⟩
  cases fieldsOk with
  | false => exact ⟨rfl, rfl, rfl, rfl⟩
  | true =>
    cases lk with
    | some m => exact ⟨rfl, rfl, rfl, rfl⟩
    | none =>
      cases hv : Srv.verifyToken toks email tok with
      | error e => simp [Srv.uploadTrack, hv]
      | ok o =>
        cases o with
        | none => simp [Srv.uploadTrack, hv]
        | some row =>
          cases bl with
          | some m => simp [Srv.uploadTrack, Srv.uploadFinish, hv]
          | none =>
            cases ins with
            | some m => simp [Srv.uploadTrack, Srv.uploadFinish, hv]
            | none => simp [Srv.uploadTrack, Srv.uploadFinish, hv]
